import Mathlib

/-!
Shallow embedding of the shwary-node-sdk payment SDK (TypeScript sources)
in Lean 4, covering the country registry, the validator, the error
taxonomy, the `PaymentRequest` and `Transaction` data objects, the HTTP
response classifier, and the configuration loader.

Modelling conventions for the JavaScript runtime:
* JS `number` values that flow through typed arithmetic comparisons are
  modelled as `ℚ`; the IEEE-754 special values `NaN`/`±Infinity` are outside
  the model except where `Number(...)` coercion can genuinely produce `NaN`,
  which is modelled by `JNum := Option ℚ` with `none` standing for `NaN`.
* Untyped JS values (`unknown` inside `Record<string, unknown>`) are the
  inductive `JVal`; a missing object key is `JVal.undef`.
* The platform `Date` builtin is modelled abstractly by epoch milliseconds:
  `JVal.jisodate ms` stands for the string `new Date(ms).toISOString()`.
  The only `Date` facts the development relies on are the true platform
  facts that ISO-8601 rendering is injective, deterministic, and inverted
  by `new Date(...)`; an invalid `Date` is `none : Option ℤ` and
  `toISOString` on it throws.
* The WHATWG `URL` parser is modelled by `urlParse`, which validates a
  scheme prefix and, for special schemes, a non-empty host, which is the
  level of fidelity the SDK's `protocol === 'https:'` check depends on.
-/

/-- JS `number`: `some q` is an ordinary numeric value, `none` is `NaN`. -/
abbrev JNum := Option ℚ

/-- Untyped JavaScript runtime values (`unknown`). `undef` doubles as an
absent object key; `jisodate ms` is the ISO-8601 string for epoch
millisecond `ms` (see module docstring). -/
inductive JVal where
  | jnull
  | undef
  | jbool (b : Bool)
  | jnum (n : JNum)
  | jstr (s : String)
  | jisodate (ms : ℤ)
  | jobj (fields : List (String × JVal))
deriving Repr

/-- JS nullish test: `null` and `undefined` only. -/
def JVal.isNullish : JVal → Bool
  | .jnull => true
  | .undef => true
  | _ => false

/-- JS nullish coalescing `v ?? d`. -/
def jsCoalesce (v d : JVal) : JVal :=
  if v.isNullish then d else v

/-- JS truthiness. Falsy values: `null`, `undefined`, `false`, `0`, `NaN`,
and the empty string. ISO date strings are never empty, hence truthy. -/
def JVal.isTruthy : JVal → Bool
  | .jnull => false
  | .undef => false
  | .jbool b => b
  | .jnum none => false
  | .jnum (some q) => q ≠ 0
  | .jstr s => s ≠ ""
  | .jisodate _ => true
  | .jobj _ => true

/-- Decimal rendering of a rational, used only to build human-readable
error-message text (never examined by any claim). -/
def qRender (q : ℚ) : String :=
  if q.den = 1 then toString q.num else toString q.num ++ "/" ++ toString q.den

/-- Numeric value of a run of decimal digits. -/
def digitsToNat (ds : List Char) : ℕ :=
  ds.foldl (fun acc c => acc * 10 + (c.toNat - 48)) 0

/-- `xs` starts with `pre` (structural version of `startsWith`). -/
def listStartsWith : List Char → List Char → Bool
  | _, [] => true
  | [], _ :: _ => false
  | a :: as, b :: bs => a = b ∧ listStartsWith as bs

/-- `sub` occurs somewhere inside `s`. -/
def listHasSub : List Char → List Char → Bool
  | [], sub => sub = []
  | c :: rest, sub => listStartsWith (c :: rest) sub ∨ listHasSub rest sub

/-- JS `Number(...)` applied to a string: `""` is 0, a (signed) decimal
integer literal parses, anything else is `NaN`. This is the integer
fragment of the builtin, the only fragment the SDK can reach. -/
def jsNumOfString (s : String) : JNum :=
  let t := s.toList.dropWhile (fun c => c = ' ' ∨ c = '\t' ∨ c = '\n')
  let t := (t.reverse.dropWhile (fun c => c = ' ' ∨ c = '\t' ∨ c = '\n')).reverse
  match t with
  | [] => some 0
  | '-' :: ds =>
      if ds ≠ [] ∧ ds.all Char.isDigit
      then some (-((digitsToNat ds) : ℚ)) else none
  | '+' :: ds =>
      if ds ≠ [] ∧ ds.all Char.isDigit
      then some (((digitsToNat ds) : ℚ)) else none
  | ds =>
      if ds.all Char.isDigit then some (((digitsToNat ds) : ℚ)) else none

/-- JS `Number(v)` coercion. ISO date strings do not parse as numbers. -/
def jsNumber : JVal → JNum
  | .jnull => some 0
  | .undef => none
  | .jbool b => some (if b then 1 else 0)
  | .jnum n => n
  | .jstr s => jsNumOfString s
  | .jisodate _ => none
  | .jobj _ => none

/-- JS `String(v)` coercion, returning a string-valued `JVal` (so that an
ISO date string stays represented by its millisecond value). -/
def jsToString : JVal → JVal
  | .jnull => .jstr "null"
  | .undef => .jstr "undefined"
  | .jbool b => .jstr (if b then "true" else "false")
  | .jnum none => .jstr "NaN"
  | .jnum (some q) => .jstr (qRender q)
  | .jstr s => .jstr s
  | .jisodate ms => .jisodate ms
  | .jobj _ => .jstr "[object Object]"

/-- A JS `Date` value: `some ms` is a valid date at epoch millisecond `ms`,
`none` is an Invalid Date. -/
abbrev JDate := Option ℤ

/-- JS `new Date(v)`: an ISO date string parses back to its milliseconds,
`null` and booleans coerce through 0/1 milliseconds, numbers are taken as
milliseconds, and everything else is an Invalid Date. -/
def jsNewDate : JVal → JDate
  | .jisodate ms => some ms
  | .jnum (some q) => some ⌊q⌋
  | .jnum none => none
  | .jnull => some 0
  | .jbool b => some (if b then 1 else 0)
  | .jstr _ => none
  | .undef => none
  | .jobj _ => none

/-- `Date.prototype.toISOString`: renders a valid date, throws (`none`) on
an Invalid Date. -/
def jdateToISOString : JDate → Option JVal
  | some ms => some (.jisodate ms)
  | none => none

/-- JS `parseInt(s, 10)`: skip leading whitespace, optional sign, then the
leading run of decimal digits; `NaN` when that run is empty. -/
def jsParseInt (s : String) : JNum :=
  let t := s.toList.dropWhile (fun c => c = ' ' ∨ c = '\t' ∨ c = '\n')
  let core : List Char → Bool → JNum := fun cs neg =>
    let ds := cs.takeWhile Char.isDigit
    if ds = [] then none
    else
      let v : ℚ := (digitsToNat ds : ℚ)
      some (if neg then -v else v)
  match t with
  | '-' :: cs => core cs true
  | '+' :: cs => core cs false
  | cs => core cs false

/-- JS `a < b` over possibly-`NaN` numbers: any comparison with `NaN` is
false. -/
def jnumLt (a : JNum) (b : ℚ) : Bool :=
  match a with
  | none => false
  | some q => q < b

/-- `String.prototype.includes`. -/
def strIncludes (s sub : String) : Bool :=
  listHasSub s.toList sub.toList

/-- Result of the WHATWG `new URL(...)` parse: the SDK only inspects
`protocol` (scheme plus trailing colon). -/
structure ParsedURL where
  protocol : String
deriving Repr, DecidableEq

/-- Schemes the WHATWG parser treats as special (requiring a host). -/
def specialSchemes : List String := ["http", "https", "ws", "wss", "ftp"]

/-- A valid first scheme character is ASCII alphabetic. -/
def schemeStartChar (c : Char) : Bool := c.isAlpha

/-- Subsequent scheme characters: ASCII alphanumeric, `+`, `-`, `.`. -/
def schemeChar (c : Char) : Bool :=
  c.isAlpha ∨ c.isDigit ∨ c = '+' ∨ c = '-' ∨ c = '.'

/-- WHATWG `new URL(input)` with no base, at the fidelity the SDK uses:
extract an ASCII scheme terminated by `:`; lowercase it; for a special
scheme, skip any run of slashes and require a non-empty host; yield the
`protocol`. `none` models the parser throwing. -/
def urlParse (input : String) : Option ParsedURL :=
  match input.toList with
  | [] => none
  | c :: cs =>
      if schemeStartChar c then
        let rest := (c :: cs).dropWhile schemeChar
        let schemeChars := (c :: cs).takeWhile schemeChar
        match rest with
        | ':' :: afterColon =>
            let scheme := String.mk (schemeChars.map Char.toLower)
            if specialSchemes.contains scheme then
              let afterSlashes := afterColon.dropWhile (fun ch => ch = '/' ∨ ch = '\\')
              let host := afterSlashes.takeWhile
                (fun ch => ch ≠ '/' ∧ ch ≠ '?' ∧ ch ≠ '#')
              if host = [] then none else some ⟨scheme ++ ":"⟩
            else
              some ⟨scheme ++ ":"⟩
        | _ => none
      else none

/-- Country code enum (`CountryCode` in `enums/Country.ts`). -/
inductive CountryCode where
  | DRC
  | KENYA
  | UGANDA
deriving Repr, DecidableEq

/-- The wire string for a country code. -/
def CountryCode.value : CountryCode → String
  | .DRC => "DRC"
  | .KENYA => "KE"
  | .UGANDA => "UG"

/-- `CountryMetadata` from `enums/Country.ts`. -/
structure CountryMetadata where
  code : CountryCode
  name : String
  currency : String
  dialCode : String
  minimumAmount : ℚ
deriving Repr, DecidableEq

/-- `Country.DRC`. -/
def Country.DRC : CountryMetadata :=
  { code := .DRC
    name := "Democratic Republic of Congo"
    currency := "CDF"
    dialCode := "+243"
    minimumAmount := 2900 }

/-- `Country.KENYA`. -/
def Country.KENYA : CountryMetadata :=
  { code := .KENYA
    name := "Kenya"
    currency := "KES"
    dialCode := "+254"
    minimumAmount := 0 }

/-- `Country.UGANDA`. -/
def Country.UGANDA : CountryMetadata :=
  { code := .UGANDA
    name := "Uganda"
    currency := "UGX"
    dialCode := "+256"
    minimumAmount := 0 }

/-- `Country.getAll()`. -/
def Country.getAll : List CountryMetadata :=
  [Country.DRC, Country.KENYA, Country.UGANDA]

/-- `TransactionStatus.PENDING` — a string enum value at runtime. -/
def TransactionStatus.PENDING : JVal := .jstr "pending"

/-- `TransactionStatus.COMPLETED`. -/
def TransactionStatus.COMPLETED : JVal := .jstr "completed"

/-- `TransactionStatus.FAILED`. -/
def TransactionStatus.FAILED : JVal := .jstr "failed"

/-- The subset of a fetch `Response` the SDK inspects. `jsonBody` is the
outcome of `response.json()` (`none` models the parse throwing) and
`textBody` the outcome of `response.text()`; both are platform-supplied
oracles for the wire body. -/
structure Response where
  status : ℤ
  statusText : String
  contentType : Option String
  jsonBody : Option JVal
  textBody : Option String
deriving Repr

/-- `Response.ok`: status in the 2xx range. -/
def Response.ok (r : Response) : Bool :=
  200 ≤ r.status ∧ r.status ≤ 299

/-- `ShwaryError` base shape: every SDK error carries a message, a numeric
code, an open context map, a class name (set by the subclass constructor),
and, for `ApiError.fromResponse` only, the originating response. -/
structure ShwaryError where
  name : String
  message : String
  code : ℤ
  context : List (String × JVal)
  response : Option Response := none
deriving Repr

/-- `ShwaryError.toJSON` projection `{name, message, code, context}`. -/
structure ErrorJson where
  name : String
  message : String
  code : ℤ
  context : List (String × JVal)
deriving Repr

/-- `toJSON()` on an error. -/
def ShwaryError.toJSON (e : ShwaryError) : ErrorJson :=
  { name := e.name, message := e.message, code := e.code, context := e.context }

/-- `ValidationError` constructor: fixes `code = 400`. -/
def ValidationError.mkError (message : String) (context : List (String × JVal)) :
    ShwaryError :=
  { name := "ValidationError", message := message, code := 400, context := context }

/-- `ValidationError.invalidAmount(amount, country)`. -/
def ValidationError.invalidAmount (amount : ℚ) (country : CountryMetadata) :
    ShwaryError :=
  ValidationError.mkError
    ("Amount must be greater than " ++ qRender country.minimumAmount ++ " "
      ++ country.currency)
    [("field", .jstr "amount"),
     ("value", .jnum (some amount)),
     ("minimum", .jnum (some country.minimumAmount)),
     ("currency", .jstr country.currency)]

/-- `ValidationError.invalidPhoneNumber(phone, country)`. -/
def ValidationError.invalidPhoneNumber (phone : String) (country : CountryMetadata) :
    ShwaryError :=
  ValidationError.mkError
    ("Phone number must start with " ++ country.dialCode ++ " in E.164 format")
    [("field", .jstr "clientPhoneNumber"),
     ("value", .jstr phone),
     ("expected", .jstr (country.dialCode ++ "XXXXXXXXX")),
     ("dialCode", .jstr country.dialCode)]

/-- `ValidationError.invalidCallbackUrl(url)`. -/
def ValidationError.invalidCallbackUrl (url : String) : ShwaryError :=
  ValidationError.mkError
    "Callback URL must be a valid HTTPS URL"
    [("field", .jstr "callbackUrl"),
     ("value", .jstr url),
     ("expected", .jstr "https://...")]

/-- `ValidationError.missingRequiredField(field)`. -/
def ValidationError.missingRequiredField (field : String) : ShwaryError :=
  ValidationError.mkError
    ("Required field missing: " ++ field)
    [("field", .jstr field)]

/-- `AuthenticationError.invalidCredentials()`: fixes `code = 401`. -/
def AuthenticationError.invalidCredentials : ShwaryError :=
  { name := "AuthenticationError"
    message := "Invalid merchant credentials. Please check your merchant ID and key."
    code := 401
    context := [("reason", .jstr "invalid_credentials")] }

/-- `'message' in body` for a truthy object body. -/
def bodyMessage : JVal → Option JVal
  | .jobj fields => (fields.find? (fun kv => kv.1 = "message")).map (·.2)
  | _ => none

/-- String content of `String(body.message)` for error-message extraction. -/
def jsToStringText (v : JVal) : String :=
  match jsToString v with
  | .jstr s => s
  | .jisodate _ => "<iso-date>"
  | _ => ""

/-- `ApiError.getMessageForStatus(status, body)`. -/
def ApiError.getMessageForStatus (status : ℤ) (body : JVal) : String :=
  match bodyMessage body with
  | some m => jsToStringText m
  | none =>
      if status = 400 then "Bad Request: Invalid payment parameters"
      else if status = 401 then "Unauthorized: Invalid merchant credentials"
      else if status = 404 then "Not Found: Client or merchant not found"
      else if status = 502 then "Bad Gateway: Payment provider unavailable"
      else "API Error: " ++ toString status

/-- `ApiError.fromResponse(response, body)`: context gets the status,
status text and (for an object body) the body itself; message from
`getMessageForStatus`; code is the HTTP status. -/
def ApiError.fromResponse (response : Response) (body : JVal) : ShwaryError :=
  let baseCtx : List (String × JVal) :=
    [("status", .jnum (some (response.status : ℚ))),
     ("statusText", .jstr response.statusText)]
  let context :=
    match body with
    | .jobj fields => baseCtx ++ [("body", .jobj fields)]
    | _ => baseCtx
  { name := "ApiError"
    message := ApiError.getMessageForStatus response.status body
    code := response.status
    context := context
    response := some response }

/-- `ApiError.networkError(message, cause?)`: code 0. -/
def ApiError.networkError (message : String) (cause : Option String) : ShwaryError :=
  { name := "ApiError"
    message := message
    code := 0
    context :=
      [("reason", .jstr "network_error")] ++
        (match cause with
         | some c => [("cause", .jstr c)]
         | none => []) }

/-- `ApiError.badGateway(message?)`: fixed 502 error whose context is
`{reason: bad_gateway}` and whose message defaults to a fixed string. -/
def ApiError.badGateway (message : Option String) : ShwaryError :=
  { name := "ApiError"
    message :=
      match message with
      | some m => if m = "" then "Bad Gateway: Failed to reach payment provider" else m
      | none => "Bad Gateway: Failed to reach payment provider"
    code := 502
    context := [("reason", .jstr "bad_gateway")] }

/-- `ApiError.clientNotFound(phone)`. -/
def ApiError.clientNotFound (phone : String) : ShwaryError :=
  { name := "ApiError"
    message := "Client not found: " ++ phone
    code := 404
    context := [("reason", .jstr "client_not_found"), ("phone", .jstr phone)] }

/-- `Validator.isValidPhoneFormat(phone, dialCode)`: E.164 regex
`^\+\d{1,15}$` and a `startsWith(dialCode)` check. -/
def Validator.isValidPhoneFormat (phone : String) (dialCode : String) : Bool :=
  let e164 : Bool :=
    match phone.toList with
    | '+' :: digits =>
        digits.all Char.isDigit ∧ 1 ≤ digits.length ∧ digits.length ≤ 15
    | _ => false
  e164 ∧ listStartsWith phone.toList dialCode.toList

/-- `Validator.isValidHttpsUrl(url)`: `new URL` parses and
`protocol === 'https:'`. -/
def Validator.isValidHttpsUrl (url : String) : Bool :=
  match urlParse url with
  | some parsed => parsed.protocol = "https:"
  | none => false

/-- `Validator.validateAmount(amount, country)`. The source guard is
`typeof amount !== 'number' || amount <= 0`; with amounts modelled as `ℚ`
the `typeof` disjunct is identically false. -/
def Validator.validateAmount (amount : ℚ) (country : CountryMetadata) :
    Except ShwaryError Unit :=
  if amount ≤ 0 then
    .error (ValidationError.invalidAmount amount country)
  else if amount < country.minimumAmount then
    .error (ValidationError.invalidAmount amount country)
  else
    .ok ()

/-- `Validator.validatePhoneNumber(phone, country)`. The source guard is
`typeof phone !== 'string' || !phone`; on a string argument that is the
emptiness test, and `phone || ''` is then `''`. -/
def Validator.validatePhoneNumber (phone : String) (country : CountryMetadata) :
    Except ShwaryError Unit :=
  if phone = "" then
    .error (ValidationError.invalidPhoneNumber "" country)
  else if ¬ Validator.isValidPhoneFormat phone country.dialCode then
    .error (ValidationError.invalidPhoneNumber phone country)
  else
    .ok ()

/-- `Validator.validateCallbackUrl(url?)`: `if (!url) return` treats both
`undefined` and the empty string as absent; the `typeof` branch is
unreachable on string input. -/
def Validator.validateCallbackUrl (url : Option String) :
    Except ShwaryError Unit :=
  match url with
  | none => .ok ()
  | some u =>
      if u = "" then .ok ()
      else if ¬ Validator.isValidHttpsUrl u then
        .error (ValidationError.invalidCallbackUrl u)
      else
        .ok ()

/-- `PaymentRequestData` as it exists at the JS call boundary: each field
may be absent (`none`), since the required-field checks in
`validatePaymentRequest` exist precisely to catch that. -/
structure PaymentRequestData where
  amount : Option ℚ
  clientPhoneNumber : Option String
  country : Option CountryMetadata
  callbackUrl : Option String
deriving Repr, DecidableEq

/-- Truthiness of a possibly-absent JS number (`!request.amount`). -/
def jsTruthyNumOpt : Option ℚ → Bool
  | none => false
  | some q => q ≠ 0

/-- Truthiness of a possibly-absent JS string. -/
def jsTruthyStrOpt : Option String → Bool
  | none => false
  | some s => s ≠ ""

/-- A country record is truthy whenever present (objects are truthy). -/
def jsTruthyCountryOpt : Option CountryMetadata → Bool
  | none => false
  | some _ => true

/-- `Validator.validatePaymentRequest(request)`: three truthiness-based
required-field checks in order amount, clientPhoneNumber, country, then
the three field validators in order amount, phone, callbackUrl. The
`getD` defaults are unreachable: the corresponding truthiness guards have
already ruled out `none`. -/
def Validator.validatePaymentRequest (request : PaymentRequestData) :
    Except ShwaryError Unit :=
  if ¬ jsTruthyNumOpt request.amount then
    .error (ValidationError.missingRequiredField "amount")
  else if ¬ jsTruthyStrOpt request.clientPhoneNumber then
    .error (ValidationError.missingRequiredField "clientPhoneNumber")
  else if ¬ jsTruthyCountryOpt request.country then
    .error (ValidationError.missingRequiredField "country")
  else do
    Validator.validateAmount (request.amount.getD 0) (request.country.getD Country.DRC)
    Validator.validatePhoneNumber (request.clientPhoneNumber.getD "")
      (request.country.getD Country.DRC)
    Validator.validateCallbackUrl request.callbackUrl

/-- An immutable `PaymentRequest` instance: the fields copied by the
constructor after validation passes. -/
structure PaymentRequest where
  amount : Option ℚ
  clientPhoneNumber : Option String
  country : Option CountryMetadata
  callbackUrl : Option String
deriving Repr, DecidableEq

/-- The `PaymentRequest` constructor: validate, then copy the data fields.
An exception aborts construction (`Except.error`). -/
def PaymentRequest.construct (data : PaymentRequestData) :
    Except ShwaryError PaymentRequest :=
  match Validator.validatePaymentRequest data with
  | .error e => .error e
  | .ok _ =>
      .ok { amount := data.amount
            clientPhoneNumber := data.clientPhoneNumber
            country := data.country
            callbackUrl := data.callbackUrl }

/-- `PaymentRequest.create(amount, phone, country, callbackUrl?)`. -/
def PaymentRequest.create (amount : ℚ) (phone : String)
    (country : CountryMetadata) (callbackUrl : Option String) :
    Except ShwaryError PaymentRequest :=
  PaymentRequest.construct
    { amount := some amount
      clientPhoneNumber := some phone
      country := some country
      callbackUrl := callbackUrl }

/-- The raw key/value map (`Record<string, unknown>`) that
`Transaction.fromApiResponse` reads; `fromApiResponse` inspects exactly
these sixteen keys, and an absent key reads as `undefined`. The same shape
is the plain object produced by `toJSON`. -/
structure RawTx where
  id : JVal := .undef
  userId : JVal := .undef
  amount : JVal := .undef
  currency : JVal := .undef
  type : JVal := .undef
  status : JVal := .undef
  recipientPhoneNumber : JVal := .undef
  referenceId : JVal := .undef
  metadata : JVal := .undef
  failureReason : JVal := .undef
  completedAt : JVal := .undef
  createdAt : JVal := .undef
  updatedAt : JVal := .undef
  isSandbox : JVal := .undef
  pretiumTransactionId : JVal := .undef
  error : JVal := .undef
deriving Repr

/-- `TransactionData`, the record handed to the `Transaction` constructor.
The `as`-cast fields (`status`, `metadata`, `failureReason`,
`completedAt`, `pretiumTransactionId`, `error`) are compile-time-only
casts in the source, so their runtime values are arbitrary `JVal`s. -/
structure TransactionData where
  id : JVal
  userId : JVal
  amount : JNum
  currency : JVal
  type : JVal
  status : JVal
  recipientPhoneNumber : JVal
  referenceId : JVal
  metadata : JVal
  failureReason : JVal
  completedAt : JVal
  createdAt : JVal
  updatedAt : JVal
  isSandbox : Bool
  pretiumTransactionId : JVal
  error : JVal
deriving Repr

/-- An immutable `Transaction` instance (every field `readonly`). -/
structure Transaction where
  id : JVal
  userId : JVal
  amount : JNum
  currency : JVal
  type : JVal
  status : JVal
  recipientPhoneNumber : JVal
  referenceId : JVal
  metadata : JVal
  failureReason : JVal
  completedAt : Option JDate
  createdAt : JDate
  updatedAt : JDate
  isSandbox : Bool
  pretiumTransactionId : JVal
  error : JVal
deriving Repr

/-- The `Transaction` constructor: `?? null` defaults on the optional
fields, a truthiness-guarded `new Date` on `completedAt`, and unguarded
`new Date` on the two timestamps. -/
def Transaction.construct (data : TransactionData) : Transaction :=
  { id := data.id
    userId := data.userId
    amount := data.amount
    currency := data.currency
    type := data.type
    status := data.status
    recipientPhoneNumber := data.recipientPhoneNumber
    referenceId := data.referenceId
    metadata := jsCoalesce data.metadata .jnull
    failureReason := jsCoalesce data.failureReason .jnull
    completedAt :=
      if data.completedAt.isTruthy then some (jsNewDate data.completedAt) else none
    createdAt := jsNewDate data.createdAt
    updatedAt := jsNewDate data.updatedAt
    isSandbox := data.isSandbox
    pretiumTransactionId := jsCoalesce data.pretiumTransactionId .jnull
    error := jsCoalesce data.error .jnull }

/-- `Transaction.fromApiResponse(data)`. The source's implicit dependence
on the current time (`new Date().toISOString()` as the timestamp default)
is made explicit through the `now` parameter. -/
def Transaction.fromApiResponse (now : ℤ) (data : RawTx) : Transaction :=
  Transaction.construct
    { id := jsToString (jsCoalesce data.id (.jstr ""))
      userId := jsToString (jsCoalesce data.userId (.jstr ""))
      amount := jsNumber (jsCoalesce data.amount (.jnum (some 0)))
      currency := jsToString (jsCoalesce data.currency (.jstr ""))
      type := jsToString (jsCoalesce data.type (.jstr "deposit"))
      status := jsCoalesce data.status TransactionStatus.PENDING
      recipientPhoneNumber := jsToString (jsCoalesce data.recipientPhoneNumber (.jstr ""))
      referenceId := jsToString (jsCoalesce data.referenceId (.jstr ""))
      metadata := jsCoalesce data.metadata .jnull
      failureReason := jsCoalesce data.failureReason .jnull
      completedAt := jsCoalesce data.completedAt .jnull
      createdAt := jsToString (jsCoalesce data.createdAt (.jisodate now))
      updatedAt := jsToString (jsCoalesce data.updatedAt (.jisodate now))
      isSandbox := (jsCoalesce data.isSandbox (.jbool false)).isTruthy
      pretiumTransactionId := jsCoalesce data.pretiumTransactionId .jnull
      error := jsCoalesce data.error .jnull }

/-- `Transaction.toJSON()`: the plain object projection. `toISOString`
throws on an Invalid Date, which surfaces as `none`. -/
def Transaction.toJSON (t : Transaction) : Option RawTx := do
  let createdIso ← jdateToISOString t.createdAt
  let updatedIso ← jdateToISOString t.updatedAt
  let completedIso ←
    match t.completedAt with
    | none => some JVal.jnull
    | some d => jdateToISOString d
  some
    { id := t.id
      userId := t.userId
      amount := .jnum t.amount
      currency := t.currency
      type := t.type
      status := t.status
      recipientPhoneNumber := t.recipientPhoneNumber
      referenceId := t.referenceId
      metadata := t.metadata
      failureReason := t.failureReason
      completedAt := completedIso
      createdAt := createdIso
      updatedAt := updatedIso
      isSandbox := .jbool t.isSandbox
      pretiumTransactionId := t.pretiumTransactionId
      error := t.error }

/-- The body-sniffing step of `HttpClient.handleResponse`: JSON parse when
the content type says `application/json`, else text; any thrown parse
exception yields `null`. -/
def sniffBody (r : Response) : JVal :=
  match r.contentType with
  | some ct =>
      if strIncludes ct "application/json" then
        match r.jsonBody with
        | some v => v
        | none => .jnull
      else
        match r.textBody with
        | some t => .jstr t
        | none => .jnull
  | none =>
      match r.textBody with
      | some t => .jstr t
      | none => .jnull

/-- `HttpClient.handleResponse(response)`: parse the body, then classify
401 / 404 / 502 / other non-2xx; a 2xx returns the parsed body. -/
def HttpClient.handleResponse (r : Response) : Except ShwaryError JVal :=
  let body := sniffBody r
  if ¬ r.ok then
    if r.status = 401 then
      .error AuthenticationError.invalidCredentials
    else if r.status = 404 then
      .error (ApiError.fromResponse r body)
    else if r.status = 502 then
      .error (ApiError.badGateway none)
    else
      .error (ApiError.fromResponse r body)
  else
    .ok body

/-- The five environment variables `Config.fromEnvironment` reads; `none`
is an unset variable. -/
structure Env where
  SHWARY_MERCHANT_ID : Option String := none
  SHWARY_MERCHANT_KEY : Option String := none
  SHWARY_BASE_URL : Option String := none
  SHWARY_TIMEOUT : Option String := none
  SHWARY_SANDBOX : Option String := none
deriving Repr, DecidableEq

/-- `ConfigOptions` with its optional members. -/
structure ConfigOptions where
  merchantId : String
  merchantKey : String
  baseUrl : Option String := none
  timeout : Option JNum := none
  sandbox : Option Bool := none
deriving Repr

/-- An immutable `Config` instance. -/
structure Config where
  merchantId : String
  merchantKey : String
  baseUrl : String
  timeout : JNum
  sandbox : Bool
deriving Repr, DecidableEq

/-- `Config.DEFAULT_BASE_URL`. -/
def Config.DEFAULT_BASE_URL : String := "https://api.shwary.com"

/-- `Config.DEFAULT_TIMEOUT`. -/
def Config.DEFAULT_TIMEOUT : ℚ := 30000

/-- `baseUrl.replace(/\/$/, '')`: strip one trailing slash. -/
def stripTrailingSlash (s : String) : String :=
  if s.toList.getLast? = some '/' then String.mk s.toList.dropLast else s

/-- JS `x || y` on a possibly-absent string. -/
def jsOrString (x : Option String) (d : String) : String :=
  match x with
  | none => d
  | some s => if s = "" then d else s

/-- The `Config` constructor: destructure with defaults, strip the
trailing slash, assign, then `validate()`. Validation failures are plain
`Error`s, modelled by their message. -/
def Config.construct (options : ConfigOptions) : Except String Config :=
  let baseUrl := (options.baseUrl.getD Config.DEFAULT_BASE_URL)
  let timeout := (options.timeout.getD (some Config.DEFAULT_TIMEOUT))
  let sandbox := options.sandbox.getD false
  let cfg : Config :=
    { merchantId := options.merchantId
      merchantKey := options.merchantKey
      baseUrl := stripTrailingSlash baseUrl
      timeout := timeout
      sandbox := sandbox }
  if cfg.merchantId = "" then
    .error "Merchant ID is required and must be a string"
  else if cfg.merchantKey = "" then
    .error "Merchant Key is required and must be a string"
  else if jnumLt cfg.timeout 1000 then
    .error "Timeout must be at least 1000 milliseconds"
  else
    match urlParse cfg.baseUrl with
    | some _ => .ok cfg
    | none => .error ("Invalid base URL: " ++ cfg.baseUrl)

/-- `Config.fromEnvironment(env)`. -/
def Config.fromEnvironment (env : Env) : Except String Config :=
  Config.construct
    { merchantId := jsOrString env.SHWARY_MERCHANT_ID ""
      merchantKey := jsOrString env.SHWARY_MERCHANT_KEY ""
      baseUrl := some (jsOrString env.SHWARY_BASE_URL Config.DEFAULT_BASE_URL)
      timeout :=
        some
          (if jsTruthyStrOpt env.SHWARY_TIMEOUT then
            jsParseInt (env.SHWARY_TIMEOUT.getD "")
          else
            some Config.DEFAULT_TIMEOUT)
      sandbox :=
        some
          (env.SHWARY_SANDBOX = some "true" ∨ env.SHWARY_SANDBOX = some "1" ∨
            env.SHWARY_SANDBOX = some "yes") }

/-- A `JVal` that is a JS string (an ordinary string or an ISO date). -/
def JVal.isStringVal : JVal → Bool
  | .jstr _ => true
  | .jisodate _ => true
  | _ => false

lemma jsCoalesce_of_not_nullish {v : JVal} (d : JVal) (h : v.isNullish = false) :
    jsCoalesce v d = v := by
  simp [jsCoalesce, h]

lemma jsToString_of_stringVal {v : JVal} (h : v.isStringVal = true) :
    jsToString v = v := by
  cases v <;> simp_all [JVal.isStringVal, jsToString]

lemma stringVal_not_nullish {v : JVal} (h : v.isStringVal = true) :
    v.isNullish = false := by
  cases v <;> simp_all [JVal.isStringVal, JVal.isNullish]

lemma validateAmount_ok_iff (q : ℚ) (c : CountryMetadata) :
    Validator.validateAmount q c = .ok () ↔ (0 < q ∧ c.minimumAmount ≤ q) := by
  unfold Validator.validateAmount
  by_cases h1 : q ≤ 0
  · simp only [h1, if_true]
    constructor
    · intro h
      exact absurd h (by simp)
    · rintro ⟨hq, _⟩
      linarith
  · by_cases h2 : q < c.minimumAmount
    · simp only [h1, if_false, h2, if_true]
      constructor
      · intro h
        exact absurd h (by simp)
      · rintro ⟨_, hm⟩
        linarith
    · simp only [h1, if_false, h2, if_true]
      simp only [true_iff, Except.ok.injEq]
      exact ⟨by linarith, by linarith⟩

lemma validatePhoneNumber_ok_iff (p : String) (c : CountryMetadata) :
    Validator.validatePhoneNumber p c = .ok ()
      ↔ Validator.isValidPhoneFormat p c.dialCode = true := by
  unfold Validator.validatePhoneNumber
  by_cases h1 : p = ""
  · subst h1
    simp [Validator.isValidPhoneFormat]
  · by_cases h2 : Validator.isValidPhoneFormat p c.dialCode
    · simp [h1, h2]
    · simp [h1, h2]

lemma validateCallbackUrl_ok_iff (u : Option String) :
    Validator.validateCallbackUrl u = .ok ()
      ↔ (u = none ∨ u = some "" ∨
          ∃ s, u = some s ∧ Validator.isValidHttpsUrl s = true) := by
  unfold Validator.validateCallbackUrl
  cases u with
  | none => simp
  | some s =>
      by_cases h1 : s = ""
      · subst h1
        simp
      · by_cases h2 : Validator.isValidHttpsUrl s
        · simp [h1, h2]
        · simp [h1, h2]

/-- C1 (counterexample): the claim that `validateAmount` accepts an amount
exactly equal to `country.minimumAmount` for every supported country fails
for Kenya: its minimum is 0, and amount 0 is rejected by the positivity
check before the minimum comparison is reached. -/
theorem c1_boundary_counterexample :
    Country.KENYA ∈ Country.getAll
    ∧ (0 : ℚ) = Country.KENYA.minimumAmount
    ∧ Validator.validateAmount 0 Country.KENYA
        = .error (ValidationError.invalidAmount 0 Country.KENYA) :=
  ⟨by decide, rfl, rfl⟩

/-- C1 (amended): for every country record, `validateAmount` accepts an
amount exactly when it is strictly positive and at least
`country.minimumAmount` (so equality with the minimum passes the `<`
comparison); in particular the DRC minimum 2900 itself is accepted. For a
country whose minimum is 0 (Kenya, Uganda) the amount equal to the minimum
is instead rejected by the positivity check. -/
theorem c1_boundary_amended :
    (∀ (c : CountryMetadata) (q : ℚ),
      Validator.validateAmount q c = .ok () ↔ (0 < q ∧ c.minimumAmount ≤ q))
    ∧ Validator.validateAmount Country.DRC.minimumAmount Country.DRC = .ok () :=
  ⟨fun c q => validateAmount_ok_iff q c, rfl⟩

/-- C4 (counterexample): `Transaction.fromApiResponse` does not restrict
the status to {pending, completed, failed}: the `as TransactionStatus`
cast is compile-time-only, so a raw map with status `"bogus"` produces a
Transaction whose status is `"bogus"`. -/
theorem c4_status_counterexample :
    (Transaction.fromApiResponse 0 { status := .jstr "bogus" }).status = .jstr "bogus"
    ∧ JVal.jstr "bogus" ≠ TransactionStatus.PENDING
    ∧ JVal.jstr "bogus" ≠ TransactionStatus.COMPLETED
    ∧ JVal.jstr "bogus" ≠ TransactionStatus.FAILED :=
  ⟨rfl, by simp [TransactionStatus.PENDING], by simp [TransactionStatus.COMPLETED],
    by simp [TransactionStatus.FAILED]⟩

/-- C4 (amended): the status of a Transaction produced by
`fromApiResponse` is the raw input's status field passed through
unvalidated, with only nullish (missing/null) statuses defaulted to
pending; in particular an input with no status field yields pending. -/
theorem c4_status_amended :
    (∀ (now : ℤ) (data : RawTx),
      (Transaction.fromApiResponse now data).status
        = jsCoalesce data.status TransactionStatus.PENDING)
    ∧ (∀ now : ℤ, (Transaction.fromApiResponse now { }).status
        = TransactionStatus.PENDING) :=
  ⟨fun _ _ => rfl, fun _ => rfl⟩

/-- C7 (counterexample): the claim that every supplied string is rejected
unless it parses as an HTTPS URL fails at the supplied string `""`: the
`!url` guard treats the empty string as absent, so validation succeeds
even though `""` is not a valid HTTPS URL. -/
theorem c7_callback_counterexample :
    Validator.validateCallbackUrl (some "") = .ok ()
    ∧ Validator.isValidHttpsUrl "" = false :=
  ⟨rfl, rfl⟩

/-- C7 (amended): `validateCallbackUrl` succeeds exactly when the url is
absent, the empty string (falsy, treated as absent), or a string that
parses as a URL with scheme exactly https; so `https://a.com` passes while
`http://a.com` and `not-a-url` throw `invalidCallbackUrl`. -/
theorem c7_callback_amended :
    (∀ u : Option String,
      Validator.validateCallbackUrl u = .ok ()
        ↔ (u = none ∨ u = some "" ∨
            ∃ s, u = some s ∧ Validator.isValidHttpsUrl s = true))
    ∧ Validator.validateCallbackUrl (some "https://a.com") = .ok ()
    ∧ Validator.validateCallbackUrl (some "http://a.com")
        = .error (ValidationError.invalidCallbackUrl "http://a.com")
    ∧ Validator.validateCallbackUrl (some "not-a-url")
        = .error (ValidationError.invalidCallbackUrl "not-a-url")
    ∧ Validator.validateCallbackUrl none = .ok () :=
  ⟨validateCallbackUrl_ok_iff, rfl, rfl, rfl, rfl⟩

/-- C8 (counterexample): `missingRequiredField` does not populate the
context with the offending value or the expected constraint — its context
holds only the field name. -/
theorem c8_factories_counterexample :
    (ValidationError.missingRequiredField "amount").code = 400
    ∧ (ValidationError.missingRequiredField "amount").context
        = [("field", .jstr "amount")]
    ∧ ((ValidationError.missingRequiredField "amount").context.find?
        (fun kv => kv.1 = "value")) = none
    ∧ ((ValidationError.missingRequiredField "amount").context.find?
        (fun kv => kv.1 = "expected")) = none :=
  ⟨rfl, rfl, rfl, rfl⟩

/-- C8 (amended): all four ValidationError factories carry code 400;
`invalidAmount`, `invalidPhoneNumber` and `invalidCallbackUrl` populate
the context with the offending field name, the offending value, and the
expected constraint, while `missingRequiredField` populates only the
field name. -/
theorem c8_factories_amended :
    (∀ (q : ℚ) (c : CountryMetadata),
      (ValidationError.invalidAmount q c).code = 400
      ∧ (ValidationError.invalidAmount q c).context
          = [("field", .jstr "amount"), ("value", .jnum (some q)),
             ("minimum", .jnum (some c.minimumAmount)),
             ("currency", .jstr c.currency)])
    ∧ (∀ (p : String) (c : CountryMetadata),
      (ValidationError.invalidPhoneNumber p c).code = 400
      ∧ (ValidationError.invalidPhoneNumber p c).context
          = [("field", .jstr "clientPhoneNumber"), ("value", .jstr p),
             ("expected", .jstr (c.dialCode ++ "XXXXXXXXX")),
             ("dialCode", .jstr c.dialCode)])
    ∧ (∀ u : String,
      (ValidationError.invalidCallbackUrl u).code = 400
      ∧ (ValidationError.invalidCallbackUrl u).context
          = [("field", .jstr "callbackUrl"), ("value", .jstr u),
             ("expected", .jstr "https://...")])
    ∧ (∀ f : String,
      (ValidationError.missingRequiredField f).code = 400
      ∧ (ValidationError.missingRequiredField f).context
          = [("field", .jstr f)]) :=
  ⟨fun _ _ => ⟨rfl, rfl⟩, fun _ _ => ⟨rfl, rfl⟩, fun _ => ⟨rfl, rfl⟩,
    fun _ => ⟨rfl, rfl⟩⟩

/-- C10: a payment request whose amount is exactly 0 fails the truthiness
required-field check, so `validatePaymentRequest` throws
`missingRequiredField` with context field `"amount"`, and that error is
distinct from the `invalidAmount` error. -/
theorem c10_zero_amount :
    (∀ r : PaymentRequestData, r.amount = some 0 →
      Validator.validatePaymentRequest r
        = .error (ValidationError.missingRequiredField "amount"))
    ∧ (ValidationError.missingRequiredField "amount").context
        = [("field", .jstr "amount")]
    ∧ (∀ c : CountryMetadata,
        ValidationError.missingRequiredField "amount"
          ≠ ValidationError.invalidAmount 0 c) := by
  refine ⟨?_, rfl, ?_⟩
  · intro r h
    unfold Validator.validatePaymentRequest
    rw [h]
    simp [jsTruthyNumOpt]
  · intro c h
    have hlen := congrArg (fun e => e.context.length) h
    simp [ValidationError.missingRequiredField, ValidationError.invalidAmount,
      ValidationError.mkError] at hlen

/-- C10 (witness): the zero-amount behaviour at a concrete DRC request. -/
theorem c10_zero_amount_witness :
    ({ amount := some 0, clientPhoneNumber := some "+243812345678",
       country := some Country.DRC, callbackUrl := none } :
        PaymentRequestData).amount = some 0
    ∧ Validator.validatePaymentRequest
        { amount := some 0, clientPhoneNumber := some "+243812345678",
          country := some Country.DRC, callbackUrl := none }
        = .error (ValidationError.missingRequiredField "amount") :=
  ⟨rfl, c10_zero_amount.1 _ rfl⟩

/-- The amount required-field presence check of `validatePaymentRequest`,
as a standalone check. -/
def requiredAmountCheck (r : PaymentRequestData) : Except ShwaryError Unit :=
  if jsTruthyNumOpt r.amount then .ok ()
  else .error (ValidationError.missingRequiredField "amount")

/-- The clientPhoneNumber required-field presence check. -/
def requiredPhoneCheck (r : PaymentRequestData) : Except ShwaryError Unit :=
  if jsTruthyStrOpt r.clientPhoneNumber then .ok ()
  else .error (ValidationError.missingRequiredField "clientPhoneNumber")

/-- The country required-field presence check. -/
def requiredCountryCheck (r : PaymentRequestData) : Except ShwaryError Unit :=
  if jsTruthyCountryOpt r.country then .ok ()
  else .error (ValidationError.missingRequiredField "country")

/-- First failure in a list of checks: the error of the earliest failing
check, or success when all pass. -/
def firstFailure : List (Except ShwaryError Unit) → Except ShwaryError Unit
  | [] => .ok ()
  | .error e :: _ => .error e
  | .ok _ :: rest => firstFailure rest

/-- The six checks of `validatePaymentRequest` in their program order:
presence of amount, phone, country, then the three field validators. -/
def paymentRequestChecks (r : PaymentRequestData) : List (Except ShwaryError Unit) :=
  [requiredAmountCheck r,
   requiredPhoneCheck r,
   requiredCountryCheck r,
   Validator.validateAmount (r.amount.getD 0) (r.country.getD Country.DRC),
   Validator.validatePhoneNumber (r.clientPhoneNumber.getD "")
     (r.country.getD Country.DRC),
   Validator.validateCallbackUrl r.callbackUrl]

/-- C6: `validatePaymentRequest` is exactly the first-failure semantics
over its six checks in the fixed order amount-presence, phone-presence,
country-presence, validateAmount, validatePhoneNumber,
validateCallbackUrl: the error raised is the one from the earliest
failing check, and nothing after it is consulted. -/
theorem c6_check_order (r : PaymentRequestData) :
    Validator.validatePaymentRequest r = firstFailure (paymentRequestChecks r) := by
  unfold Validator.validatePaymentRequest paymentRequestChecks
    requiredAmountCheck requiredPhoneCheck requiredCountryCheck
  by_cases h1 : jsTruthyNumOpt r.amount
  · by_cases h2 : jsTruthyStrOpt r.clientPhoneNumber
    · by_cases h3 : jsTruthyCountryOpt r.country
      · simp only [h1, h2, h3, if_true, not_true, if_false]
        cases hva : Validator.validateAmount (r.amount.getD 0) (r.country.getD Country.DRC) with
        | error e => simp [firstFailure, hva, Bind.bind, Except.bind]
        | ok u =>
            cases u
            cases hvp : Validator.validatePhoneNumber (r.clientPhoneNumber.getD "")
                (r.country.getD Country.DRC) with
            | error e => simp [firstFailure, hva, hvp, Bind.bind, Except.bind]
            | ok u2 =>
                cases u2
                cases hvc : Validator.validateCallbackUrl r.callbackUrl with
                | error e => simp [firstFailure, hva, hvp, hvc, Bind.bind, Except.bind]
                | ok u3 =>
                    cases u3
                    simp [firstFailure, hva, hvp, hvc, Bind.bind, Except.bind]
      · simp [h1, h2, h3, firstFailure]
    · simp [h1, h2, firstFailure]
  · simp [h1, firstFailure]

/-- C3 (counterexample): a 502 response is not given the same treatment as
the other non-2xx statuses: `handleResponse` throws `ApiError.badGateway()`
with a fixed message and context, ignoring the parsed body, whereas
`ApiError.fromResponse` on the same response would carry the body's own
message. -/
theorem c3_response_counterexample :
    HttpClient.handleResponse
        { status := 502, statusText := "Bad Gateway",
          contentType := some "application/json",
          jsonBody := some (.jobj [("message", .jstr "upstream exploded")]),
          textBody := some "" }
      = .error (ApiError.badGateway none)
    ∧ (ApiError.badGateway none).message
        = "Bad Gateway: Failed to reach payment provider"
    ∧ (ApiError.fromResponse
        { status := 502, statusText := "Bad Gateway",
          contentType := some "application/json",
          jsonBody := some (.jobj [("message", .jstr "upstream exploded")]),
          textBody := some "" }
        (sniffBody
          { status := 502, statusText := "Bad Gateway",
            contentType := some "application/json",
            jsonBody := some (.jobj [("message", .jstr "upstream exploded")]),
            textBody := some "" })).message
        = "upstream exploded"
    ∧ "Bad Gateway: Failed to reach payment provider" ≠ "upstream exploded" :=
  ⟨rfl, rfl, rfl, by decide⟩

/-- C3 (amended): `handleResponse` classifies a response as: 2xx returns
the sniffed body; 401 raises `AuthenticationError.invalidCredentials`;
502 raises the fixed `ApiError.badGateway()` that ignores the parsed
body; every other non-2xx status — 404 included, with no special
treatment — raises `ApiError.fromResponse(response, parsedBody)`. -/
theorem c3_response_amended (r : Response) :
    HttpClient.handleResponse r =
      (if r.ok then .ok (sniffBody r)
       else if r.status = 401 then .error AuthenticationError.invalidCredentials
       else if r.status = 502 then .error (ApiError.badGateway none)
       else .error (ApiError.fromResponse r (sniffBody r))) := by
  unfold HttpClient.handleResponse
  by_cases hok : r.ok
  · simp [hok]
  · by_cases h401 : r.status = 401
    · simp [hok, h401]
    · by_cases h404 : r.status = 404
      · simp [hok, h401, h404]
      · by_cases h502 : r.status = 502
        · simp [hok, h401, h404, h502]
        · simp [hok, h401, h404, h502]

/-- C2 (counterexample): a `PaymentRequest` can be constructed with amount
exactly equal to `country.minimumAmount` (DRC, 2900), so the claimed
invariant `amount > country.minimumAmount` does not hold of every
constructed instance. -/
theorem c2_invariant_counterexample :
    PaymentRequest.construct
        { amount := some 2900, clientPhoneNumber := some "+243812345678",
          country := some Country.DRC, callbackUrl := none }
      = .ok { amount := some 2900, clientPhoneNumber := some "+243812345678",
              country := some Country.DRC, callbackUrl := none }
    ∧ ¬ ((2900 : ℚ) > Country.DRC.minimumAmount) :=
  ⟨rfl, by decide⟩

/-- C2 (amended): every `PaymentRequest` the constructor returns satisfies,
immutably: amount is a positive number at least `country.minimumAmount`
(not strictly greater), the phone matches E.164 and starts with
`country.dialCode`, and the callbackUrl, when present and non-empty, is a
valid HTTPS URL (the empty string slips through the falsiness guard). -/
theorem c2_invariant_amended (data : PaymentRequestData) (req : PaymentRequest)
    (h : PaymentRequest.construct data = .ok req) :
    ∃ (q : ℚ) (c : CountryMetadata) (p : String),
      req.amount = some q ∧ req.country = some c ∧ req.clientPhoneNumber = some p
      ∧ 0 < q ∧ c.minimumAmount ≤ q
      ∧ Validator.isValidPhoneFormat p c.dialCode = true
      ∧ (∀ u, req.callbackUrl = some u → u ≠ "" →
          Validator.isValidHttpsUrl u = true) := by
  unfold PaymentRequest.construct at h
  cases hv : Validator.validatePaymentRequest data with
  | error e => rw [hv] at h; exact absurd h (by simp)
  | ok u =>
      rw [hv] at h
      cases u
      have hreq : req = ⟨data.amount, data.clientPhoneNumber,
          data.country, data.callbackUrl⟩ := by
        cases h
        rfl
      subst hreq
      by_cases h1 : jsTruthyNumOpt data.amount
      · by_cases h2 : jsTruthyStrOpt data.clientPhoneNumber
        · by_cases h3 : jsTruthyCountryOpt data.country
          · simp only [Validator.validatePaymentRequest, h1, h2, h3,
              not_true, if_false] at hv
            cases damt : data.amount with
            | none => simp [jsTruthyNumOpt, damt] at h1
            | some q =>
                cases dc : data.country with
                | none => simp [jsTruthyCountryOpt, dc] at h3
                | some c =>
                    cases dp : data.clientPhoneNumber with
                    | none => simp [jsTruthyStrOpt, dp] at h2
                    | some p =>
                        rw [damt, dc, dp] at hv
                        simp only [Option.getD_some] at hv
                        cases hva : Validator.validateAmount q c with
                        | error e => simp [hva, Bind.bind, Except.bind] at hv
                        | ok u1 =>
                            cases u1
                            cases hvp : Validator.validatePhoneNumber p c with
                            | error e =>
                                simp [hva, hvp, Bind.bind, Except.bind] at hv
                            | ok u2 =>
                                cases u2
                                cases hvc : Validator.validateCallbackUrl
                                    data.callbackUrl with
                                | error e =>
                                    simp [hva, hvp, hvc, Bind.bind, Except.bind] at hv
                                | ok u3 =>
                                    obtain ⟨hq, hmin⟩ :=
                                      (validateAmount_ok_iff q c).mp hva
                                    have hfmt :=
                                      (validatePhoneNumber_ok_iff p c).mp hvp
                                    refine ⟨q, c, p, rfl, rfl, rfl, hq, hmin, hfmt, ?_⟩
                                    intro uu huu hne
                                    have huu' : data.callbackUrl = some uu := huu
                                    rcases (validateCallbackUrl_ok_iff
                                        data.callbackUrl).mp hvc with hnone | hemp | hs
                                    · rw [hnone] at huu'
                                      cases huu'
                                    · rw [hemp] at huu'
                                      cases huu'
                                      exact absurd rfl hne
                                    · obtain ⟨s, hs1, hs2⟩ := hs
                                      rw [hs1] at huu'
                                      cases huu'
                                      exact hs2
          · simp [Validator.validatePaymentRequest, h1, h2, h3] at hv
        · simp [Validator.validatePaymentRequest, h1, h2] at hv
      · simp [Validator.validatePaymentRequest, h1] at hv

/-- C2 (witness): the amended invariant at a concrete successfully
constructed request. -/
theorem c2_invariant_amended_witness :
    ∃ (q : ℚ) (c : CountryMetadata) (p : String),
      (PaymentRequest.mk (some 5000) (some "+243812345678") (some Country.DRC) (some "https://a.com")).amount = some q
      ∧ (PaymentRequest.mk (some 5000) (some "+243812345678") (some Country.DRC) (some "https://a.com")).country = some c
      ∧ (PaymentRequest.mk (some 5000) (some "+243812345678") (some Country.DRC) (some "https://a.com")).clientPhoneNumber = some p
      ∧ 0 < q ∧ c.minimumAmount ≤ q
      ∧ Validator.isValidPhoneFormat p c.dialCode = true
      ∧ (∀ u, (PaymentRequest.mk (some 5000) (some "+243812345678") (some Country.DRC) (some "https://a.com")).callbackUrl
            = some u → u ≠ "" → Validator.isValidHttpsUrl u = true) :=
  c2_invariant_amended
    (PaymentRequestData.mk (some 5000) (some "+243812345678") (some Country.DRC) (some "https://a.com"))
    (PaymentRequest.mk (some 5000) (some "+243812345678") (some Country.DRC) (some "https://a.com"))
    rfl

lemma config_construct_sandbox (opts : ConfigOptions) (c : Config)
    (h : Config.construct opts = .ok c) : c.sandbox = opts.sandbox.getD false := by
  simp only [Config.construct] at h
  split_ifs at h
  cases hu : urlParse
      (stripTrailingSlash (opts.baseUrl.getD Config.DEFAULT_BASE_URL)) with
  | none => rw [hu] at h; exact absurd h (by simp)
  | some p =>
      rw [hu] at h
      cases h
      rfl

/-- C9: `Config.fromEnvironment` with only the two merchant variables set
yields the default base URL, timeout 30000 and sandbox false; and for
every environment from which a Config is produced, sandbox is true exactly
when `SHWARY_SANDBOX` is one of "true", "1", "yes". -/
theorem c9_config :
    (Config.fromEnvironment
        { SHWARY_MERCHANT_ID := some "x", SHWARY_MERCHANT_KEY := some "y" }
      = .ok { merchantId := "x", merchantKey := "y",
              baseUrl := Config.DEFAULT_BASE_URL, timeout := some 30000,
              sandbox := false })
    ∧ (∀ (env : Env) (c : Config), Config.fromEnvironment env = .ok c →
        (c.sandbox = true ↔ (env.SHWARY_SANDBOX = some "true"
          ∨ env.SHWARY_SANDBOX = some "1"
          ∨ env.SHWARY_SANDBOX = some "yes"))) := by
  refine ⟨rfl, ?_⟩
  intro env c h
  unfold Config.fromEnvironment at h
  have hs := config_construct_sandbox _ _ h
  rw [hs]
  simp

/-- C9 (witness): the sandbox characterisation at a concrete environment
with `SHWARY_SANDBOX = "yes"`. -/
theorem c9_config_witness :
    Config.fromEnvironment
        (Env.mk (some "x") (some "y") none none (some "yes"))
      = .ok (Config.mk "x" "y" Config.DEFAULT_BASE_URL (some 30000) true)
    ∧ ((Config.mk "x" "y" Config.DEFAULT_BASE_URL (some 30000) true).sandbox = true
        ↔ ((Env.mk (some "x") (some "y") none none (some "yes")).SHWARY_SANDBOX
              = some "true"
          ∨ (Env.mk (some "x") (some "y") none none (some "yes")).SHWARY_SANDBOX
              = some "1"
          ∨ (Env.mk (some "x") (some "y") none none (some "yes")).SHWARY_SANDBOX
              = some "yes")) :=
  ⟨rfl, c9_config.2 (Env.mk (some "x") (some "y") none none (some "yes"))
    (Config.mk "x" "y" Config.DEFAULT_BASE_URL (some 30000) true) rfl⟩

lemma roundtrip_string_field {v : JVal} (d : JVal) (h : v.isStringVal = true) :
    jsToString (jsCoalesce v d) = v := by
  rw [jsCoalesce_of_not_nullish d (stringVal_not_nullish h)]
  exact jsToString_of_stringVal h

/-- A fully populated `Transaction`: every string-typed field is an actual
string, every optional field is present (non-nullish), `completedAt` is a
present valid date, and both timestamps are valid dates. -/
def Transaction.fullyPopulated (t : Transaction) : Prop :=
  t.id.isStringVal = true ∧ t.userId.isStringVal = true
  ∧ t.currency.isStringVal = true ∧ t.type.isStringVal = true
  ∧ t.recipientPhoneNumber.isStringVal = true ∧ t.referenceId.isStringVal = true
  ∧ t.status.isNullish = false ∧ t.metadata.isNullish = false
  ∧ t.failureReason.isNullish = false ∧ t.pretiumTransactionId.isNullish = false
  ∧ t.error.isNullish = false
  ∧ (match t.completedAt with | some (some _) => true | _ => false) = true
  ∧ t.createdAt.isSome = true ∧ t.updatedAt.isSome = true

/-- C5: for every fully populated Transaction (all optional fields
present, valid timestamps), feeding the plain object produced by `toJSON`
back through `fromApiResponse` reconstructs the Transaction exactly,
field for field, for any value of the current time. -/
theorem c5_roundtrip (t : Transaction) (now : ℤ) (raw : RawTx)
    (hfull : t.fullyPopulated) (hjson : t.toJSON = some raw) :
    Transaction.fromApiResponse now raw = t := by
  obtain ⟨h1, h2, h3, h4, h5, h6, h7, h8, h9, h10, h11, h12, h13, h14⟩ := hfull
  cases t with
  | mk id userId amount currency ty status recip ref md fr comp cr up sand pret err =>
      simp only at h1 h2 h3 h4 h5 h6 h7 h8 h9 h10 h11 h12 h13 h14
      obtain ⟨ms₁, rfl⟩ := Option.isSome_iff_exists.mp h13
      obtain ⟨ms₂, rfl⟩ := Option.isSome_iff_exists.mp h14
      match comp, h12 with
      | some (some ms₀), _ =>
          injection hjson with hraw
          subst hraw
          simp only [Transaction.fromApiResponse, Transaction.construct,
            Transaction.mk.injEq]
          refine ⟨roundtrip_string_field _ h1, roundtrip_string_field _ h2, rfl,
            roundtrip_string_field _ h3, roundtrip_string_field _ h4,
            jsCoalesce_of_not_nullish _ h7,
            roundtrip_string_field _ h5, roundtrip_string_field _ h6,
            ?_, ?_, rfl, rfl, rfl, rfl, ?_, ?_⟩
          · rw [jsCoalesce_of_not_nullish _ h8, jsCoalesce_of_not_nullish _ h8]
          · rw [jsCoalesce_of_not_nullish _ h9, jsCoalesce_of_not_nullish _ h9]
          · rw [jsCoalesce_of_not_nullish _ h10, jsCoalesce_of_not_nullish _ h10]
          · rw [jsCoalesce_of_not_nullish _ h11, jsCoalesce_of_not_nullish _ h11]

/-- C5 (witness): the round-trip at a concrete fully populated
transaction. -/
theorem c5_roundtrip_witness :
    Transaction.fromApiResponse 0
        (RawTx.mk (.jstr "tx-1") (.jstr "u-1") (.jnum (some 5000)) (.jstr "CDF")
          (.jstr "deposit") (.jstr "completed") (.jstr "+243812345678")
          (.jstr "ref-1") (.jobj [("k", .jstr "v")]) (.jstr "none")
          (.jisodate 500) (.jisodate 100) (.jisodate 200) (.jbool true)
          (.jstr "p-1") (.jstr "e-1"))
      = Transaction.mk (.jstr "tx-1") (.jstr "u-1") (some 5000) (.jstr "CDF")
          (.jstr "deposit") (.jstr "completed") (.jstr "+243812345678")
          (.jstr "ref-1") (.jobj [("k", .jstr "v")]) (.jstr "none")
          (some (some 500)) (some 100) (some 200) true (.jstr "p-1")
          (.jstr "e-1") :=
  c5_roundtrip
    (Transaction.mk (.jstr "tx-1") (.jstr "u-1") (some 5000) (.jstr "CDF")
      (.jstr "deposit") (.jstr "completed") (.jstr "+243812345678")
      (.jstr "ref-1") (.jobj [("k", .jstr "v")]) (.jstr "none")
      (some (some 500)) (some 100) (some 200) true (.jstr "p-1") (.jstr "e-1"))
    0
    (RawTx.mk (.jstr "tx-1") (.jstr "u-1") (.jnum (some 5000)) (.jstr "CDF")
      (.jstr "deposit") (.jstr "completed") (.jstr "+243812345678")
      (.jstr "ref-1") (.jobj [("k", .jstr "v")]) (.jstr "none")
      (.jisodate 500) (.jisodate 100) (.jisodate 200) (.jbool true)
      (.jstr "p-1") (.jstr "e-1"))
    ⟨rfl, rfl, rfl, rfl, rfl, rfl, rfl, rfl, rfl, rfl, rfl, rfl, rfl, rfl⟩
    rfl
